import Mathlib

/-!
Shallow embedding of the simple MCP server (src/server.js) in Lean 4.

The server side consists of a static tool registry (getTools, server.js
lines 140-198), a dispatcher (handleToolCall, lines 200-250), a POST
transport that maps thrown errors to HTTP 500 (lines 100-110 and 130-137),
and an SSE endpoint that writes two data frames and then keep-alive
comments every 15 seconds (lines 55-97).

JavaScript values that flow through the dispatcher are modelled by JSVal:
strings, numbers, plain objects, undefined, and NaN.  JS numbers are
embedded as integers: all numeric literals in the program and in the
claims are integers, and integer arithmetic in doubles is exact in that
range; the embedding does not model fractional or overflowing doubles.
Property access on undefined throws a TypeError, on other non-objects it
yields undefined, as in JS.  Fallible evaluation is Except JsError.
-/

/-- A JavaScript value as used by the server: undefined, NaN, a string, an
(integer) number, or a plain object given as an ordered field list. -/
inductive JSVal where
  | undefined : JSVal
  | nan : JSVal
  | jstr : String → JSVal
  | jnum : Int → JSVal
  | jobj : List (String × JSVal) → JSVal

/-- JS ToString as used by template interpolation: undefined prints as the
literal text undefined, NaN as NaN, numbers in decimal, plain objects as
[object Object]. -/
def jsToString : JSVal → String
  | .undefined => "undefined"
  | .nan => "NaN"
  | .jstr s => s
  | .jnum n => toString n
  | .jobj _ => "[object Object]"

/-- Field lookup in an object literal: the first binding wins, a missing
field is undefined. -/
def lookupProp (fs : List (String × JSVal)) (k : String) : JSVal :=
  match fs.find? (fun p => p.1 == k) with
  | some p => p.2
  | none => .undefined

/-- An error thrown by the dispatcher: either an explicit throw new Error
(err) or a TypeError raised by reading a property of undefined. -/
inductive JsError where
  | err : String → JsError
  | typeError : String → JsError

/-- The message carried by a thrown error, as read by error.message in the
POST handlers. -/
def JsError.message : JsError → String
  | .err m => m
  | .typeError m => m

/-- Property read (also used for destructuring): reading a property of
undefined throws a TypeError; on an object it is field lookup; on any
other primitive it yields undefined. -/
def getProp : JSVal → String → Except JsError JSVal
  | .undefined, k => .error (.typeError ("Cannot read property " ++ k ++ " of undefined"))
  | .jobj fs, k => .ok (lookupProp fs k)
  | _, _ => .ok .undefined

/-- JS binary + as exercised by add_numbers: number plus number adds;
undefined or NaN mixed with numbers gives NaN; if either side is a string
or an object, both sides are converted to strings and concatenated. -/
def jsAdd (a b : JSVal) : JSVal :=
  match a, b with
  | .jnum x, .jnum y => .jnum (x + y)
  | .jnum _, .nan => .nan
  | .nan, .jnum _ => .nan
  | .nan, .nan => .nan
  | .undefined, .jnum _ => .nan
  | .jnum _, .undefined => .nan
  | .undefined, .undefined => .nan
  | .undefined, .nan => .nan
  | .nan, .undefined => .nan
  | x, y => .jstr (jsToString x ++ jsToString y)

/-- JS strict equality of a value against a string literal, as used by the
if chain on method and by the switch on name. -/
def strictEqStr : JSVal → String → Bool
  | .jstr s, t => s == t
  | _, _ => false

/-- Schema of one property inside an inputSchema. -/
structure PropSchema where
  type : String
  description : String

/-- The inputSchema member of a tool descriptor. -/
structure InputSchema where
  type : String
  properties : List (String × PropSchema)
  required : List String

/-- One tool descriptor of the registry. -/
structure ToolDescriptor where
  name : String
  description : String
  inputSchema : InputSchema

/-- The static tool registry, verbatim from getTools (server.js lines
140-198): hello, echo, get_time, add_numbers, in insertion order. -/
def getTools : List ToolDescriptor :=
  [ { name := "hello",
      description := "Say hello to someone",
      inputSchema :=
        { type := "object",
          properties := [("name", { type := "string", description := "Name of the person to greet" })],
          required := ["name"] } },
    { name := "echo",
      description := "Echo back the input message",
      inputSchema :=
        { type := "object",
          properties := [("message", { type := "string", description := "Message to echo back" })],
          required := ["message"] } },
    { name := "get_time",
      description := "Get the current time",
      inputSchema :=
        { type := "object",
          properties := [],
          required := [] } },
    { name := "add_numbers",
      description := "Add two numbers together",
      inputSchema :=
        { type := "object",
          properties :=
            [("a", { type := "number", description := "First number" }),
             ("b", { type := "number", description := "Second number" })],
          required := ["a", "b"] } } ]

/-- One item of a content envelope. -/
structure ContentItem where
  type : String
  text : String

/-- A successful dispatcher result: either the tools listing or a content
envelope. -/
inductive ToolResult where
  | toolsList : List ToolDescriptor → ToolResult
  | content : List ContentItem → ToolResult

/-- The dispatcher handleToolCall (server.js lines 200-250).  The clock
read by get_time (new Date toISOString) is passed in as now.  The request
body is destructured into method and params; tools/list returns the
registry; tools/call destructures params (throwing a TypeError when params
is undefined) and switches on the tool name by strict string equality;
anything else throws Unknown method. -/
def handleToolCall (now : String) (request : JSVal) : Except JsError ToolResult := do
  let method ← getProp request "method"
  let params ← getProp request "params"
  if strictEqStr method "tools/list" then
    return ToolResult.toolsList getTools
  else if strictEqStr method "tools/call" then
    let name ← getProp params "name"
    let args ← getProp params "arguments"
    if strictEqStr name "hello" then
      let n ← getProp args "name"
      return ToolResult.content [{ type := "text", text := "Hello, " ++ jsToString n ++ "! Welcome to the simple MCP server." }]
    else if strictEqStr name "echo" then
      let m ← getProp args "message"
      return ToolResult.content [{ type := "text", text := "Echo: " ++ jsToString m }]
    else if strictEqStr name "get_time" then
      return ToolResult.content [{ type := "text", text := "Current time: " ++ now }]
    else if strictEqStr name "add_numbers" then
      let a ← getProp args "a"
      let b ← getProp args "b"
      let result := jsAdd a b
      return ToolResult.content [{ type := "text", text := jsToString a ++ " + " ++ jsToString b ++ " = " ++ jsToString result }]
    else
      throw (JsError.err ("Unknown tool: " ++ jsToString name))
  else
    throw (JsError.err ("Unknown method: " ++ jsToString method))

/-- The body of a POST response: on success the dispatcher result as JSON,
on a thrown error the object with the single field error holding the
message. -/
inductive PostBody where
  | result : ToolResult → PostBody
  | errorObj : String → PostBody

/-- An HTTP response of the POST transport: status code and JSON body. -/
structure HttpResponse where
  status : Nat
  body : PostBody

/-- The POST /sse handler (server.js lines 100-110): a successful
dispatcher result is returned with status 200, a thrown error is caught
and mapped to status 500 with body containing the error message. -/
def postSse (now : String) (reqBody : JSVal) : HttpResponse :=
  match handleToolCall now reqBody with
  | .ok r => { status := 200, body := .result r }
  | .error e => { status := 500, body := .errorObj e.message }

/-- The POST /mcp handler (server.js lines 130-137), identical in behavior
to POST /sse. -/
def postMcp (now : String) (reqBody : JSVal) : HttpResponse :=
  match handleToolCall now reqBody with
  | .ok r => { status := 200, body := .result r }
  | .error e => { status := 500, body := .errorObj e.message }

/-- The params member of a pushed SSE notification: the empty object for
the initialized notification, or the object holding the tools list. -/
inductive SseParams where
  | empty : SseParams
  | withTools : List ToolDescriptor → SseParams

/-- A JSON-RPC notification pushed over the SSE channel. -/
structure SseMessage where
  jsonrpc : String
  method : String
  params : SseParams

/-- The first message written on an SSE connection (server.js lines
68-74). -/
def initMessage : SseMessage :=
  { jsonrpc := "2.0", method := "notifications/initialized", params := .empty }

/-- The second message written on an SSE connection (server.js lines
77-84): the tools/list notification holding the registry. -/
def toolsMessage : SseMessage :=
  { jsonrpc := "2.0", method := "tools/list", params := .withTools getTools }

/-- One chunk written to an SSE response: a data frame carrying a JSON
message, or a raw comment line. -/
inductive SseWrite where
  | data : SseMessage → SseWrite
  | comment : String → SseWrite

/-- The sequence of timestamped chunks (milliseconds since connection
accept) written by the GET /sse handler (server.js lines 55-97) on a
connection that stays open through ticks firings of the 15000 ms
setInterval timer before the peer closes: the two data frames are written
immediately at accept, then the timer writes one keep-alive comment per
firing, the first at 15000 ms; the close handler clears the timer so
nothing follows. -/
def sseWrites (ticks : Nat) : List (Nat × SseWrite) :=
  (0, .data initMessage) :: (0, .data toolsMessage) ::
    (List.range ticks).map (fun k => (15000 * (k + 1), .comment ": keep-alive\n\n"))

/-- A tools/call request body with the given name and arguments values, as
sent by a client to the POST endpoints. -/
def callRequest (name args : JSVal) : JSVal :=
  .jobj [("method", .jstr "tools/call"),
         ("params", .jobj [("name", name), ("arguments", args)])]

/- Helper lemmas about the embedding. -/

@[simp] theorem ebind_ok {α β ε : Type} (a : α) (f : α → Except ε β) :
    (Bind.bind (Except.ok a) f : Except ε β) = f a := rfl

@[simp] theorem ebind_error {α β ε : Type} (e : ε) (f : α → Except ε β) :
    (Bind.bind (Except.error e) f : Except ε β) = Except.error e := rfl

@[simp] theorem epure_eq_ok {α ε : Type} (a : α) :
    (pure a : Except ε α) = Except.ok a := rfl

theorem strictEqStr_jstr (s t : String) : strictEqStr (.jstr s) t = (s == t) := rfl

theorem strictEqStr_eq_true_iff (v : JSVal) (t : String) :
    strictEqStr v t = true ↔ v = .jstr t := by
  cases v <;> simp [strictEqStr]

@[simp] theorem ethrow_eq_error {α ε : Type} (e : ε) :
    (throw e : Except ε α) = Except.error e := rfl

@[simp] theorem lookupProp_nil (key : String) : lookupProp [] key = .undefined := rfl

@[simp] theorem lookupProp_cons (k : String) (v : JSVal) (fs : List (String × JSVal)) (key : String) :
    lookupProp ((k, v) :: fs) key = if k == key then v else lookupProp fs key := by
  cases h : (k == key) <;> simp [lookupProp, List.find?, h]

/-- Claim C1: a tools/call request for hello with a string argument name s
succeeds with the single content text Hello, s! Welcome to the simple MCP
server.; in particular for World the text is exactly Hello, World! Welcome
to the simple MCP server. -/
theorem hello_tool_text (now s : String) :
    handleToolCall now
      (.jobj [("method", .jstr "tools/call"),
              ("params", .jobj [("name", .jstr "hello"),
                                ("arguments", .jobj [("name", .jstr s)])])])
      = .ok (.content [{ type := "text",
                         text := "Hello, " ++ s ++ "! Welcome to the simple MCP server." }])
    ∧ handleToolCall now
      (.jobj [("method", .jstr "tools/call"),
              ("params", .jobj [("name", .jstr "hello"),
                                ("arguments", .jobj [("name", .jstr "World")])])])
      = .ok (.content [{ type := "text",
                         text := "Hello, World! Welcome to the simple MCP server." }]) := by
  constructor
  · rfl
  · rfl

/-- Claim C5: a tools/call request for add_numbers with integer number
arguments a and b succeeds with the single content text a + b = sum, and
in particular with a = 2 and b = 3 the text is exactly 2 + 3 = 5. -/
theorem add_numbers_text (now : String) (a b : Int) :
    handleToolCall now (callRequest (.jstr "add_numbers") (.jobj [("a", .jnum a), ("b", .jnum b)]))
      = .ok (.content [{ type := "text",
                         text := toString a ++ " + " ++ toString b ++ " = " ++ toString (a + b) }])
    ∧ handleToolCall now (callRequest (.jstr "add_numbers") (.jobj [("a", .jnum 2), ("b", .jnum 3)]))
      = .ok (.content [{ type := "text", text := "2 + 3 = 5" }]) :=
  ⟨rfl, rfl⟩

/-- Claim C8: a tools/call request for hello whose arguments object lacks
the name field still succeeds, interpolating the literal text undefined;
likewise echo with a missing message field yields Echo: undefined. -/
theorem missing_args_undefined_text (now : String) (fs gs : List (String × JSVal))
    (hf : lookupProp fs "name" = .undefined) (hg : lookupProp gs "message" = .undefined) :
    handleToolCall now (callRequest (.jstr "hello") (.jobj fs))
      = .ok (.content [{ type := "text",
                         text := "Hello, undefined! Welcome to the simple MCP server." }])
    ∧ handleToolCall now (callRequest (.jstr "echo") (.jobj gs))
      = .ok (.content [{ type := "text", text := "Echo: undefined" }]) := by
  constructor
  · simp [handleToolCall, callRequest, getProp, strictEqStr, hf, jsToString]
  · simp [handleToolCall, callRequest, getProp, strictEqStr, hg, jsToString]

/-- Witness for C8 at the empty arguments object. -/
theorem missing_args_undefined_text_witness :
    handleToolCall "T" (callRequest (.jstr "hello") (.jobj []))
      = .ok (.content [{ type := "text",
                         text := "Hello, undefined! Welcome to the simple MCP server." }])
    ∧ handleToolCall "T" (callRequest (.jstr "echo") (.jobj []))
      = .ok (.content [{ type := "text", text := "Echo: undefined" }]) :=
  missing_args_undefined_text "T" [] [] rfl rfl

/-- Claim C6: a request whose method is neither tools/list nor tools/call
fails with an Unknown method error carrying the method string, whatever
the params value. -/
theorem unknown_method_error (now m : String) (params : JSVal)
    (h1 : m ≠ "tools/list") (h2 : m ≠ "tools/call") :
    handleToolCall now (.jobj [("method", .jstr m), ("params", params)])
      = .error (.err ("Unknown method: " ++ m)) := by
  simp [handleToolCall, getProp, strictEqStr, h1, h2, jsToString]

/-- Witness for C6 at a concrete unknown method. -/
theorem unknown_method_error_witness :
    handleToolCall "T" (.jobj [("method", .jstr "frob"), ("params", .undefined)])
      = .error (.err ("Unknown method: " ++ "frob")) :=
  unknown_method_error "T" "frob" .undefined (by decide) (by decide)

/-- Helper: the switch default branch, for a string name matching none of
the four cases. -/
theorem handleToolCall_unknown_name (now n : String) (args : JSVal)
    (h1 : n ≠ "hello") (h2 : n ≠ "echo") (h3 : n ≠ "get_time") (h4 : n ≠ "add_numbers") :
    handleToolCall now (callRequest (.jstr n) args)
      = .error (.err ("Unknown tool: " ++ n)) := by
  simp [handleToolCall, callRequest, getProp, strictEqStr, h1, h2, h3, h4, jsToString]

/-- Claim C2: a tools/call request whose name is a string outside the
registry fails with an Unknown tool error carrying that name, and the POST
transport surfaces it as HTTP 500 with an error body holding the
message. -/
theorem unknown_tool_error_and_http_500 (now n : String) (args : JSVal)
    (h : n ∉ getTools.map ToolDescriptor.name) :
    handleToolCall now (callRequest (.jstr n) args)
      = .error (.err ("Unknown tool: " ++ n))
    ∧ postSse now (callRequest (.jstr n) args)
      = { status := 500, body := .errorObj ("Unknown tool: " ++ n) } := by
  simp [getTools] at h
  obtain ⟨h1, h2, h3, h4⟩ := h
  have e := handleToolCall_unknown_name now n args h1 h2 h3 h4
  exact ⟨e, by simp [postSse, e, JsError.message]⟩

/-- Witness for C2 at a concrete unregistered tool name. -/
theorem unknown_tool_error_and_http_500_witness :
    handleToolCall "T" (callRequest (.jstr "frobnicate") (.jobj []))
      = .error (.err ("Unknown tool: " ++ "frobnicate"))
    ∧ postSse "T" (callRequest (.jstr "frobnicate") (.jobj []))
      = { status := 500, body := .errorObj ("Unknown tool: " ++ "frobnicate") } :=
  unknown_tool_error_and_http_500 "T" "frobnicate" (.jobj []) (by decide)

/-- Claim C3: a tools/list request always succeeds with the full registry
output, whatever the params and whenever called, and the registry lists
exactly the four descriptors in insertion order hello, echo, get_time,
add_numbers. -/
theorem tools_list_returns_registry (now : String) (fs : List (String × JSVal))
    (h : lookupProp fs "method" = .jstr "tools/list") :
    handleToolCall now (.jobj fs) = .ok (.toolsList getTools)
    ∧ getTools.map ToolDescriptor.name = ["hello", "echo", "get_time", "add_numbers"]
    ∧ getTools.length = 4 := by
  refine ⟨?_, by simp [getTools], by simp [getTools]⟩
  simp [handleToolCall, getProp, h, strictEqStr]

/-- Witness for C3 at a concrete tools/list request. -/
theorem tools_list_returns_registry_witness :
    handleToolCall "T" (.jobj [("method", .jstr "tools/list")]) = .ok (.toolsList getTools)
    ∧ getTools.map ToolDescriptor.name = ["hello", "echo", "get_time", "add_numbers"]
    ∧ getTools.length = 4 :=
  tools_list_returns_registry "T" [("method", .jstr "tools/list")] rfl

/-- Claim C4: every tools/call request that completes successfully returns
a content envelope holding exactly one item, of type text. -/
theorem tools_call_single_text_content (now : String) (fs : List (String × JSVal)) (r : ToolResult)
    (hm : lookupProp fs "method" = .jstr "tools/call")
    (hr : handleToolCall now (.jobj fs) = .ok r) :
    ∃ t, r = .content [{ type := "text", text := t }] := by
  unfold handleToolCall at hr
  rw [show getProp (JSVal.jobj fs) "method" = Except.ok (lookupProp fs "method") from rfl,
      show getProp (JSVal.jobj fs) "params" = Except.ok (lookupProp fs "params") from rfl,
      hm] at hr
  simp only [ebind_ok,
      show strictEqStr (JSVal.jstr "tools/call") "tools/list" = false from rfl,
      show strictEqStr (JSVal.jstr "tools/call") "tools/call" = true from rfl,
      Bool.false_eq_true, if_false, if_true] at hr
  cases hn : getProp (lookupProp fs "params") "name" with
  | error e => rw [hn] at hr; simp at hr
  | ok name =>
    rw [hn] at hr
    cases ha : getProp (lookupProp fs "params") "arguments" with
    | error e => rw [ha] at hr; simp at hr
    | ok args =>
      rw [ha] at hr
      simp only [ebind_ok] at hr
      split at hr
      · cases hv : getProp args "name" with
        | error e => rw [hv] at hr; simp at hr
        | ok v =>
          rw [hv] at hr
          simp only [ebind_ok, epure_eq_ok, Except.ok.injEq] at hr
          exact ⟨_, hr.symm⟩
      · split at hr
        · cases hv : getProp args "message" with
          | error e => rw [hv] at hr; simp at hr
          | ok v =>
            rw [hv] at hr
            simp only [ebind_ok, epure_eq_ok, Except.ok.injEq] at hr
            exact ⟨_, hr.symm⟩
        · split at hr
          · simp only [epure_eq_ok, Except.ok.injEq] at hr
            exact ⟨_, hr.symm⟩
          · split at hr
            · cases hv : getProp args "a" with
              | error e => rw [hv] at hr; simp at hr
              | ok va =>
                rw [hv] at hr
                cases hw : getProp args "b" with
                | error e => rw [hw] at hr; simp at hr
                | ok vb =>
                  rw [hw] at hr
                  simp only [ebind_ok, epure_eq_ok, Except.ok.injEq] at hr
                  exact ⟨_, hr.symm⟩
            · simp at hr

/-- Witness for C4 at a concrete successful get_time call. -/
theorem tools_call_single_text_content_witness :
    ∃ t, (ToolResult.content [{ type := "text", text := "Current time: T" }])
      = .content [{ type := "text", text := t }] :=
  tools_call_single_text_content "T"
    [("method", .jstr "tools/call"),
     ("params", .jobj [("name", .jstr "get_time"), ("arguments", .jobj [])])]
    (.content [{ type := "text", text := "Current time: T" }]) rfl rfl

/-- Claim C7: the registry and the dispatcher agree on the tool names: a
tools/call for name n avoids the Unknown tool failure exactly when n is
the name of some descriptor in the tools/list output. -/
theorem registry_dispatcher_lockstep (now n : String) :
    (handleToolCall now (callRequest (.jstr n) (.jobj []))
      ≠ .error (.err ("Unknown tool: " ++ n)))
    ↔ n ∈ getTools.map ToolDescriptor.name := by
  by_cases h1 : n = "hello"
  · subst h1
    have e : handleToolCall now (callRequest (.jstr "hello") (.jobj []))
        = .ok (.content [{ type := "text",
                           text := "Hello, undefined! Welcome to the simple MCP server." }]) := rfl
    simp [e, getTools]
  by_cases h2 : n = "echo"
  · subst h2
    have e : handleToolCall now (callRequest (.jstr "echo") (.jobj []))
        = .ok (.content [{ type := "text", text := "Echo: undefined" }]) := rfl
    simp [e, getTools]
  by_cases h3 : n = "get_time"
  · subst h3
    have e : handleToolCall now (callRequest (.jstr "get_time") (.jobj []))
        = .ok (.content [{ type := "text", text := "Current time: " ++ now }]) := rfl
    simp [e, getTools]
  by_cases h4 : n = "add_numbers"
  · subst h4
    have e : handleToolCall now (callRequest (.jstr "add_numbers") (.jobj []))
        = .ok (.content [{ type := "text", text := "undefined + undefined = NaN" }]) := rfl
    simp [e, getTools]
  · have e := handleToolCall_unknown_name now n (.jobj []) h1 h2 h3 h4
    simp [e, getTools, h1, h2, h3, h4]

/-- Claim C9: on every SSE connection the write sequence starts with the
two data frames, the initialized notification with empty params then the
tools/list notification holding the full registry, both at connection
time, and every later write is the keep-alive comment, the k-th at
15000 * (k + 1) milliseconds, until the peer closes. -/
theorem sse_frame_sequence (ticks : Nat) :
    (sseWrites ticks).take 2 = [(0, .data initMessage), (0, .data toolsMessage)]
    ∧ initMessage = { jsonrpc := "2.0", method := "notifications/initialized", params := .empty }
    ∧ toolsMessage = { jsonrpc := "2.0", method := "tools/list", params := .withTools getTools }
    ∧ (sseWrites ticks).length = 2 + ticks
    ∧ ∀ k : Nat, ((sseWrites ticks).drop 2)[k]?
        = if k < ticks then some (15000 * (k + 1), SseWrite.comment ": keep-alive\n\n")
          else none := by
  refine ⟨by simp [sseWrites], rfl, rfl, by simp [sseWrites]; omega, ?_⟩
  intro k
  rcases Nat.lt_or_ge k ticks with h | h
  · simp [sseWrites, List.getElem?_map, List.getElem?_range, h]
  · rw [show (sseWrites ticks).drop 2
        = (List.range ticks).map (fun k => (15000 * (k + 1), SseWrite.comment ": keep-alive\n\n"))
      from by simp [sseWrites]]
    rw [List.getElem?_eq_none] <;> simp [Nat.not_lt.mpr h, h]

/-- Claim C10: a tools/call request with no params field raises a
TypeError from destructuring, which is not one of the thrown Error
failures, and the POST transport maps it to HTTP 500 with an error
body. -/
theorem absent_params_type_error (now : String) (fs : List (String × JSVal))
    (hm : lookupProp fs "method" = .jstr "tools/call")
    (hp : lookupProp fs "params" = .undefined) :
    handleToolCall now (.jobj fs)
      = .error (.typeError ("Cannot read property " ++ "name" ++ " of undefined"))
    ∧ (∀ s, handleToolCall now (.jobj fs) ≠ .error (.err s))
    ∧ postSse now (.jobj fs)
      = { status := 500,
          body := .errorObj ("Cannot read property " ++ "name" ++ " of undefined") } := by
  have e : handleToolCall now (.jobj fs)
      = .error (.typeError ("Cannot read property " ++ "name" ++ " of undefined")) := by
    simp [handleToolCall, getProp, hm, hp, strictEqStr]
  refine ⟨e, ?_, by simp [postSse, e, JsError.message]⟩
  intro s
  rw [e]
  simp

/-- Witness for C10 at a request holding only the method field. -/
theorem absent_params_type_error_witness :
    handleToolCall "T" (.jobj [("method", .jstr "tools/call")])
      = .error (.typeError ("Cannot read property " ++ "name" ++ " of undefined"))
    ∧ (∀ s, handleToolCall "T" (.jobj [("method", .jstr "tools/call")]) ≠ .error (.err s))
    ∧ postSse "T" (.jobj [("method", .jstr "tools/call")])
      = { status := 500,
          body := .errorObj ("Cannot read property " ++ "name" ++ " of undefined") } :=
  absent_params_type_error "T" [("method", .jstr "tools/call")] rfl rfl
